import Mathlib

/-!
# Verification of the kubeconfig merge engine and config store

Shallow embedding of the Go sources of `gogetkubeconfig`:

* `internal/server/kubeconfig.go` — the `KubeConfig` data model, `Validate`,
  `HasDuplicateNames`, `HasMultipleEntries` and `mergeKubeConfigs`;
* the pre-loaded-store server (`loadSingleConfig`, `loadAllConfigs`,
  `validateAllConfigsMergeable`, `loadAndMergeConfigs`, `NewServer`) and its
  error-to-HTTP-status mapping (`getStatusCodeFromError`).

Go errors (`errorx.InternalError.New`, `errorx.Decorate`) are modelled by the
inductive `Errorx`; a Go function returning `(T, error)` becomes
`Except Errorx T`, and one returning only `error` becomes `Option Errorx`
(`some` = error, `none` = nil).  The dynamically typed user-credential payload
(Go `any`) is never inspected by any of the modelled code, so it is modelled
as an opaque wrapper around its raw serialized text.
-/

namespace GoGetKubeconfig

/-- The opaque user-credential payload (`User any` in Go).  None of the code
modelled here ever looks inside it, so a single raw-text constructor is a
faithful opaque stand-in. -/
inductive CredValue where
  | raw (s : String)
deriving DecidableEq, Repr

/-- Constants from `kubeconfig.go`. -/
def kubeConfigApiVersion : String := "v1"

def kubeConfigKind : String := "Config"

def kubeConfigCurrentContext : String := "pp-dev"

/-- The anonymous struct inside a `Clusters` entry. -/
structure ClusterData where
  CertificateAuthorityData : String
  Server : String
deriving DecidableEq, Repr

/-- One entry of the `Clusters` section. -/
structure ClusterEntry where
  Cluster : ClusterData
  Name : String
deriving DecidableEq, Repr

/-- The anonymous struct inside a `Contexts` entry. -/
structure ContextData where
  Cluster : String
  User : String
deriving DecidableEq, Repr

/-- One entry of the `Contexts` section. -/
structure ContextEntry where
  Context : ContextData
  Name : String
deriving DecidableEq, Repr

/-- One entry of the `Users` section; `User` is the opaque credential. -/
structure UserEntry where
  User : CredValue
  Name : String
deriving DecidableEq, Repr

/-- The `KubeConfig` struct of `kubeconfig.go`. -/
structure KubeConfig where
  ApiVersion : String
  Kind : String
  Clusters : List ClusterEntry
  Contexts : List ContextEntry
  CurrentContext : String
  Users : List UserEntry
deriving DecidableEq, Repr

/-- Go errors as used by the modelled code: `errorx.InternalError.New msg`
and `errorx.Decorate cause msg`. -/
inductive Errorx where
  | internalError (msg : String)
  | decorate (msg : String) (cause : Errorx)
deriving DecidableEq, Repr

/-- The rendered error text (`err.Error()`): a decorated error shows its own
message followed by the cause's text. -/
def Errorx.message : Errorx → String
  | .internalError m => m
  | .decorate m cause => m ++ ": " ++ cause.message

/-- `NewKubeConfig("")`: the zero-value `&KubeConfig{}` — every field empty. -/
def NewKubeConfigEmpty : KubeConfig :=
  { ApiVersion := "", Kind := "", Clusters := [], Contexts := [],
    CurrentContext := "", Users := [] }

/-- `(k *KubeConfig) Validate()`: each section must be non-empty. -/
def KubeConfig.Validate (k : KubeConfig) : Option Errorx :=
  if k.Clusters.length = 0 then
    some (.internalError "kubeconfig has no clusters")
  else if k.Contexts.length = 0 then
    some (.internalError "kubeconfig has no contexts")
  else if k.Users.length = 0 then
    some (.internalError "kubeconfig has no users")
  else
    none

/-- The guarded first-entry comparison
`len(k.X) > 0 && len(other.X) > 0 && other.X[0].Name == k.X[0].Name`
for the `Clusters` section. -/
def clustersFirstNameEq (k other : KubeConfig) : Bool :=
  match k.Clusters, other.Clusters with
  | kc :: _, oc :: _ => oc.Name == kc.Name
  | _, _ => false

/-- Same first-entry comparison for the `Contexts` section. -/
def contextsFirstNameEq (k other : KubeConfig) : Bool :=
  match k.Contexts, other.Contexts with
  | kc :: _, oc :: _ => oc.Name == kc.Name
  | _, _ => false

/-- Same first-entry comparison for the `Users` section. -/
def usersFirstNameEq (k other : KubeConfig) : Bool :=
  match k.Users, other.Users with
  | kc :: _, oc :: _ => oc.Name == kc.Name
  | _, _ => false

/-- `(k *KubeConfig) HasDuplicateNames(other)`: compares only the FIRST entry
of each section of `k` with the FIRST entry of the same section of `other`. -/
def KubeConfig.HasDuplicateNames (k other : KubeConfig) : Option Errorx :=
  if clustersFirstNameEq k other then
    some (.internalError "kubeconfig has duplicate cluster name")
  else if contextsFirstNameEq k other then
    some (.internalError "kubeconfig has duplicate context name")
  else if usersFirstNameEq k other then
    some (.internalError "kubeconfig has duplicate user name")
  else
    none

/-- `(k *KubeConfig) HasMultipleEntries()`: each section must have ≤ 1 entry. -/
def KubeConfig.HasMultipleEntries (k : KubeConfig) : Option Errorx :=
  if k.Clusters.length > 1 then
    some (.internalError "kubeconfig has more than one cluster")
  else if k.Contexts.length > 1 then
    some (.internalError "kubeconfig has more than one context")
  else if k.Users.length > 1 then
    some (.internalError "kubeconfig has more than one user")
  else
    none

/-- `mergeKubeConfigs(config1, config2)`.  Check order is exactly the source's:
`config2.Validate()`, then `config1.HasDuplicateNames(config2)`, then
`config2.HasMultipleEntries()`; on success sections are concatenated and
`apiVersion`/`kind` are reset to the constants. -/
def mergeKubeConfigs (config1 config2 : KubeConfig) : Except Errorx KubeConfig :=
  match config2.Validate with
  | some e => .error e
  | none =>
    match config1.HasDuplicateNames config2 with
    | some e => .error e
    | none =>
      match config2.HasMultipleEntries with
      | some e => .error e
      | none =>
        .ok { ApiVersion := kubeConfigApiVersion
              Kind := kubeConfigKind
              Clusters := config1.Clusters ++ config2.Clusters
              Contexts := config1.Contexts ++ config2.Contexts
              Users := config1.Users ++ config2.Users
              CurrentContext :=
                if config1.CurrentContext = "" then config2.CurrentContext
                else kubeConfigCurrentContext }

/-! ## The pre-loaded config store and the server built on it -/

/-- The `LoadedConfigs map[string]*KubeConfig` store.  Modelled as an
association list; the keys inserted by `loadAllConfigs` come from distinct
file names, and `lookupConfig` finds the entry for a name (`none` = absent). -/
abbrev Store := List (String × KubeConfig)

/-- Map lookup `s.LoadedConfigs[name]`. -/
def lookupConfig (store : Store) (name : String) : Option KubeConfig :=
  match store with
  | [] => none
  | (k, v) :: rest => if k == name then some v else lookupConfig rest name

/-- `validateConfigExists`: membership check, with the exact Go error text. -/
def validateConfigExists (store : Store) (name : String) : Option Errorx :=
  match lookupConfig store name with
  | none => some (.internalError ("kubeconfig not found: " ++ name))
  | some _ => none

/-- The loop body of `loadAndMergeConfigs`: thread the accumulator through the
requested names in order; a missing name or a merge failure aborts the whole
request with no partial result. -/
def mergeNamesLoop (store : Store) (acc : KubeConfig) :
    List String → Except Errorx KubeConfig
  | [] => .ok acc
  | name :: rest =>
    match lookupConfig store name with
    | none => .error (.internalError ("kubeconfig not found: " ++ name))
    | some cfg =>
      match mergeKubeConfigs acc cfg with
      | .error e => .error (.decorate ("failed to merge kubeconfig: " ++ name) e)
      | .ok acc2 => mergeNamesLoop store acc2 rest

/-- `loadAndMergeConfigs(names)`: seed the accumulator from
`NewKubeConfig("")` and fold the requested names through the merge engine. -/
def loadAndMergeConfigs (store : Store) (names : List String) :
    Except Errorx KubeConfig :=
  mergeNamesLoop store NewKubeConfigEmpty names

/-- `getRequestedConfigNames` + `loadAndMergeConfigs` as composed by
`HandleGetKubeConfigs`: an empty requested list means "all stored names". -/
def resolve (store : Store) (requested : List String) :
    Except Errorx KubeConfig :=
  loadAndMergeConfigs store
    (if requested.isEmpty then store.map Prod.fst else requested)

/-! ### Error-to-HTTP-status mapping (`errors.go`) -/

/-- `pat.isPrefixOf l` for some tail of `l`: Go's `strings.Contains` on the
underlying character lists. -/
def listHasSub (pat : List Char) : List Char → Bool
  | [] => pat.isEmpty
  | c :: rest => pat.isPrefixOf (c :: rest) || listHasSub pat rest

/-- `strings.Contains(s, pat)`. -/
def strContains (s pat : String) : Bool :=
  listHasSub pat.data s.data

/-- `getStatusCodeFromError`: any error whose rendered text contains
`"not found"` maps to 404; every other error (the `errorx.InternalError`
branch and the default branch alike) maps to 500. -/
def getStatusCodeFromError (err : Errorx) : Nat :=
  if strContains err.message "not found" then 404 else 500

/-! ### Startup load (`loadSingleConfig`, `loadAllConfigs`, `NewServer`) -/

/-- One `os.DirEntry` of the configs directory together with what the
filesystem would answer for it: `IsDir` is `file.IsDir()`, `stat` is the
`os.Stat` outcome (`none` = stat error, `some b` = `FileInfo.IsDir()`), and
`parse` is the outcome of `NewKubeConfig(filePath)` — a read or YAML
failure, or the parsed document. -/
structure DirEntry where
  Name : String
  IsDir : Bool
  stat : Option Bool
  parse : Except Errorx KubeConfig

/-- Go `strings.HasPrefix(s, p)`, computed structurally on the character
data. -/
def hasPrefixB (s p : String) : Bool :=
  p.data.isPrefixOf s.data

/-- Go `filepath.Ext`: the suffix starting at the final dot of the final
path element, empty when there is no dot.  The scan runs from the end of the
string and stops at a path separator.  `extRevAux` walks the REVERSED
character list, accumulating until it meets the dot. -/
def extRevAux (acc : List Char) : List Char → Option (List Char)
  | [] => none
  | c :: rest =>
    if c = '/' then none
    else if c = '.' then some (acc ++ [c])
    else extRevAux (acc ++ [c]) rest

/-- `filepath.Ext(name)`. -/
def filepathExt (name : String) : String :=
  match extRevAux [] name.data.reverse with
  | none => ""
  | some revExt => ⟨revExt.reverse⟩

/-- Go `strings.TrimSuffix`. -/
def trimSuffix (s suffix : String) : String :=
  if suffix.data.isSuffixOf s.data then
    ⟨s.data.take (s.data.length - suffix.data.length)⟩
  else s

/-- The logical config name derived in `loadSingleConfig`:
`strings.TrimSuffix(fileName, filepath.Ext(fileName))`. -/
def configNameOf (fileName : String) : String :=
  trimSuffix fileName (filepathExt fileName)

/-- `filepath.Join(dir, name)` for a simple two-component join. -/
def filepathJoin (dir name : String) : String :=
  dir ++ "/" ++ name

/-- `loadSingleConfig(file)`: skip directories, `..`-prefixed names,
stat-failing paths and stat-reported directories; otherwise parse, aborting
on failure with the decorated load error, or yield the `(name, config)` pair
stored into `LoadedConfigs`. -/
def loadSingleConfig (dir : String) (file : DirEntry) :
    Except Errorx (Option (String × KubeConfig)) :=
  if file.IsDir then .ok none
  else if hasPrefixB file.Name ".." then .ok none
  else
    match file.stat with
    | none => .ok none
    | some true => .ok none
    | some false =>
      match file.parse with
      | .error e =>
        .error (.decorate ("failed to load kubeconfig: " ++
          filepathJoin dir file.Name) e)
      | .ok cfg => .ok (some (configNameOf file.Name, cfg))

/-- The loop of `loadAllConfigs`: process directory entries in order,
accumulating the store; the first failing file aborts the whole load. -/
def loadAllConfigsLoop (dir : String) (store : Store) :
    List DirEntry → Except Errorx Store
  | [] => .ok store
  | file :: rest =>
    match loadSingleConfig dir file with
    | .error e => .error e
    | .ok none => loadAllConfigsLoop dir store rest
    | .ok (some kv) => loadAllConfigsLoop dir (store ++ [kv]) rest

/-- `loadAllConfigs`: load every file of the configs directory, all or
nothing.  (The directory-exists / is-a-directory precheck is outside this
model: `files` is already the directory listing.) -/
def loadAllConfigs (dir : String) (files : List DirEntry) :
    Except Errorx Store :=
  loadAllConfigsLoop dir [] files

/-- The loop of `mergeAllConfigsForValidation`: fold every stored config
through the merge engine from the empty accumulator, in the given iteration
order, wrapping the first failure with the offending name. -/
def mergeAllLoop (acc : KubeConfig) : Store → Option Errorx
  | [] => none
  | (name, cfg) :: rest =>
    match mergeKubeConfigs acc cfg with
    | .error e =>
      some (.decorate ("failed to merge config '" ++ name ++
        "' during validation") e)
    | .ok acc2 => mergeAllLoop acc2 rest

/-- `validateAllConfigsMergeable`: skipped for an empty store, otherwise the
fold above starting from `NewKubeConfig("")`. -/
def validateAllConfigsMergeable (store : Store) : Option Errorx :=
  if store.isEmpty then none
  else mergeAllLoop NewKubeConfigEmpty store

/-- `NewServer`: load all configs, then check the whole set is mergeable;
either failure makes construction fail, so the process refuses to start.
(The final index-template self-check is template I/O outside this model and
is modelled as succeeding.) -/
def NewServer (dir : String) (files : List DirEntry) : Except Errorx Store :=
  match loadAllConfigs dir files with
  | .error e => .error (.decorate "failed to load configs on startup" e)
  | .ok store =>
    match validateAllConfigsMergeable store with
    | some e => .error (.decorate "configs cannot be merged together" e)
    | none => .ok store

/-! ## Shared concrete documents and helper lemmas -/

/-- Helper: a valid single-entry document with cluster name `cl`, context
name `cx`, user name `us` and current-context `cc`. -/
def mkSingleDoc (cl cx us cc : String) : KubeConfig :=
  { ApiVersion := "", Kind := "", CurrentContext := cc,
    Clusters := [{ Cluster := { CertificateAuthorityData := "ca", Server := "srv" },
                   Name := cl }],
    Contexts := [{ Context := { Cluster := cl, User := us }, Name := cx }],
    Users := [{ User := .raw "token", Name := us }] }

/-- Helper: `Validate` succeeds exactly on documents whose three sections are
all non-empty. -/
theorem validate_eq_none (k : KubeConfig) :
    k.Validate = none ↔
      k.Clusters ≠ [] ∧ k.Contexts ≠ [] ∧ k.Users ≠ [] := by
  unfold KubeConfig.Validate
  split_ifs with h1 h2 h3
  · rw [List.length_eq_zero] at h1
    simp [h1]
  · rw [List.length_eq_zero] at h2
    simp [h2]
  · rw [List.length_eq_zero] at h3
    simp [h3]
  · rw [List.length_eq_zero] at h1 h2 h3
    exact iff_of_true rfl ⟨h1, h2, h3⟩

/-- Helper: when the success branch of `mergeKubeConfigs` is reached, the
result is the concatenation record. -/
theorem mergeKubeConfigs_ok (config1 config2 : KubeConfig)
    (hv : config2.Validate = none)
    (hd : config1.HasDuplicateNames config2 = none)
    (hm : config2.HasMultipleEntries = none) :
    mergeKubeConfigs config1 config2 =
      .ok { ApiVersion := kubeConfigApiVersion
            Kind := kubeConfigKind
            Clusters := config1.Clusters ++ config2.Clusters
            Contexts := config1.Contexts ++ config2.Contexts
            Users := config1.Users ++ config2.Users
            CurrentContext :=
              if config1.CurrentContext = "" then config2.CurrentContext
              else kubeConfigCurrentContext } := by
  unfold mergeKubeConfigs
  rw [hv, hd, hm]

/-- C1: for every document `d` with exactly one cluster, one context and one
user, `mergeKubeConfigs NewKubeConfigEmpty d` succeeds and returns `d`
unchanged except that `ApiVersion`/`Kind` are forced to the constants `"v1"`
and `"Config"`; in particular (record equality field by field) the result's
`CurrentContext` equals `d.CurrentContext` and the opaque user credential
payload in `Users` is preserved verbatim. -/
theorem merge_empty_single (d : KubeConfig)
    (hc : d.Clusters.length = 1) (hx : d.Contexts.length = 1)
    (hu : d.Users.length = 1) :
    mergeKubeConfigs NewKubeConfigEmpty d =
      .ok { d with ApiVersion := kubeConfigApiVersion,
                   Kind := kubeConfigKind } := by
  have hv : d.Validate = none := by
    rw [validate_eq_none]
    refine ⟨?_, ?_, ?_⟩ <;> intro h <;> simp [h] at hc hx hu
  have hd : NewKubeConfigEmpty.HasDuplicateNames d = none := rfl
  have hm : d.HasMultipleEntries = none := by
    unfold KubeConfig.HasMultipleEntries
    simp [hc, hx, hu]
  rw [mergeKubeConfigs_ok _ _ hv hd hm]
  cases d with
  | mk av kd cls cxs cc us => simp [NewKubeConfigEmpty]

/-- Witness for C1 at a concrete single-entry document. -/
theorem merge_empty_single_witness :
    (mkSingleDoc "c1" "x1" "u1" "cc1").Clusters.length = 1 ∧
    (mkSingleDoc "c1" "x1" "u1" "cc1").Contexts.length = 1 ∧
    (mkSingleDoc "c1" "x1" "u1" "cc1").Users.length = 1 ∧
    mergeKubeConfigs NewKubeConfigEmpty (mkSingleDoc "c1" "x1" "u1" "cc1") =
      .ok { mkSingleDoc "c1" "x1" "u1" "cc1" with
              ApiVersion := kubeConfigApiVersion,
              Kind := kubeConfigKind } :=
  ⟨rfl, rfl, rfl, merge_empty_single (mkSingleDoc "c1" "x1" "u1" "cc1") rfl rfl rfl⟩

/-- C5: for every accumulator, `mergeKubeConfigs` fails whenever the incoming
document has zero clusters, contexts or users, or two or more of any of them;
the failure does not depend on the accumulator (which stays universally
quantified). -/
theorem merge_fails_bad_cardinality (acc inc : KubeConfig)
    (h : inc.Clusters.length = 0 ∨ inc.Contexts.length = 0 ∨
         inc.Users.length = 0 ∨ 2 ≤ inc.Clusters.length ∨
         2 ≤ inc.Contexts.length ∨ 2 ≤ inc.Users.length) :
    ∃ e, mergeKubeConfigs acc inc = .error e := by
  cases hv : inc.Validate with
  | some e => exact ⟨e, by unfold mergeKubeConfigs; rw [hv]⟩
  | none =>
    have hne := (validate_eq_none inc).mp hv
    cases hd : acc.HasDuplicateNames inc with
    | some e => exact ⟨e, by unfold mergeKubeConfigs; rw [hv, hd]⟩
    | none =>
      have hm : ∃ e, inc.HasMultipleEntries = some e := by
        unfold KubeConfig.HasMultipleEntries
        rcases h with h | h | h | h | h | h
        · exact absurd (List.length_eq_zero.mp h) hne.1
        · exact absurd (List.length_eq_zero.mp h) hne.2.1
        · exact absurd (List.length_eq_zero.mp h) hne.2.2
        all_goals split_ifs with h1 h2 h3 <;>
          first
            | exact ⟨_, rfl⟩
            | exact absurd h (by omega)
      rcases hm with ⟨e, hm⟩
      exact ⟨e, by unfold mergeKubeConfigs; rw [hv, hd, hm]⟩

/-- Witness for C5: merging an incoming document with zero clusters into a
concrete non-empty accumulator fails. -/
theorem merge_fails_bad_cardinality_witness :
    NewKubeConfigEmpty.Clusters.length = 0 ∧
    ∃ e, mergeKubeConfigs (mkSingleDoc "a" "x1" "u1" "") NewKubeConfigEmpty =
      .error e :=
  ⟨rfl, merge_fails_bad_cardinality (mkSingleDoc "a" "x1" "u1" "")
    NewKubeConfigEmpty (Or.inl rfl)⟩

/-- Helper for C3: an incoming document with TWO clusters, the first of which
is named `"a"`, plus one context and one user. -/
def twoClusterIncoming : KubeConfig :=
  { ApiVersion := "", Kind := "", CurrentContext := "",
    Clusters :=
      [{ Cluster := { CertificateAuthorityData := "ca1", Server := "s1" },
         Name := "a" },
       { Cluster := { CertificateAuthorityData := "ca2", Server := "s2" },
         Name := "b" }],
    Contexts := [{ Context := { Cluster := "a", User := "u2" }, Name := "x2" }],
    Users := [{ User := .raw "t2", Name := "u2" }] }

/-- Counterexample to C3: an incoming document with two clusters whose first
cluster name collides with the accumulator's first cluster name yields the
DUPLICATE-NAME error, not the multiple-entries error — the source checks
`HasDuplicateNames` before `HasMultipleEntries`. -/
theorem merge_check_order_counterexample :
    mergeKubeConfigs (mkSingleDoc "a" "x1" "u1" "") twoClusterIncoming =
      .error (.internalError "kubeconfig has duplicate cluster name") ∧
    mergeKubeConfigs (mkSingleDoc "a" "x1" "u1" "") twoClusterIncoming ≠
      .error (.internalError "kubeconfig has more than one cluster") := by
  refine ⟨rfl, ?_⟩
  have hres : mergeKubeConfigs (mkSingleDoc "a" "x1" "u1" "")
      twoClusterIncoming =
      .error (.internalError "kubeconfig has duplicate cluster name") := rfl
  rw [hres]
  intro h
  exact absurd (Except.error.inj h) (by decide)

/-- C3 amended: `mergeKubeConfigs` checks the non-empty-section condition
first, then the duplicate-name condition, then the at-most-one-entry
condition; so whenever the incoming document has two or more clusters with
non-empty contexts and users, and its first cluster name collides with the
accumulator's first cluster name, the error returned is the duplicate-name
error (not the multiple-entries error). -/
theorem merge_dup_checked_before_multiple (acc inc : KubeConfig)
    (hcl : 2 ≤ inc.Clusters.length) (hcx : inc.Contexts ≠ [])
    (hus : inc.Users ≠ [])
    (hname : clustersFirstNameEq acc inc = true) :
    mergeKubeConfigs acc inc =
      .error (.internalError "kubeconfig has duplicate cluster name") := by
  have hv : inc.Validate = none := by
    rw [validate_eq_none]
    refine ⟨?_, hcx, hus⟩
    intro h
    rw [h] at hcl
    simp at hcl
  have hd : acc.HasDuplicateNames inc =
      some (.internalError "kubeconfig has duplicate cluster name") := by
    unfold KubeConfig.HasDuplicateNames
    rw [hname]
    rfl
  unfold mergeKubeConfigs
  rw [hv, hd]

/-- Witness for the amended C3 at the concrete documents of the
counterexample. -/
theorem merge_dup_checked_before_multiple_witness :
    2 ≤ twoClusterIncoming.Clusters.length ∧
    twoClusterIncoming.Contexts ≠ [] ∧
    twoClusterIncoming.Users ≠ [] ∧
    clustersFirstNameEq (mkSingleDoc "a" "x1" "u1" "") twoClusterIncoming
      = true ∧
    mergeKubeConfigs (mkSingleDoc "a" "x1" "u1" "") twoClusterIncoming =
      .error (.internalError "kubeconfig has duplicate cluster name") :=
  ⟨by decide, by decide, by decide, rfl,
    merge_dup_checked_before_multiple (mkSingleDoc "a" "x1" "u1" "")
      twoClusterIncoming (by decide) (by decide) (by decide) rfl⟩

/-- C9: resolving with an empty store and no requested names succeeds and
returns the zero-value document: no clusters, contexts or users, empty
current-context, and `ApiVersion`/`Kind` equal to `""` — NOT the constants
`"v1"`/`"Config"`, because those are applied only inside the merge, which is
never invoked. -/
theorem resolve_empty_store_zero_doc :
    resolve [] [] = .ok NewKubeConfigEmpty ∧
    NewKubeConfigEmpty.Clusters = [] ∧
    NewKubeConfigEmpty.Contexts = [] ∧
    NewKubeConfigEmpty.Users = [] ∧
    NewKubeConfigEmpty.CurrentContext = "" ∧
    NewKubeConfigEmpty.ApiVersion = "" ∧
    NewKubeConfigEmpty.Kind = "" ∧
    NewKubeConfigEmpty.ApiVersion ≠ kubeConfigApiVersion ∧
    NewKubeConfigEmpty.Kind ≠ kubeConfigKind :=
  ⟨rfl, rfl, rfl, rfl, rfl, rfl, rfl, by decide, by decide⟩

/-- Counterexample to C2: for the valid single-entry documents
`d = mkSingleDoc "c1" "x1" "u1" ""` (whose current-context is EMPTY) and
`d2 = mkSingleDoc "c2" "x2" "u2" "cc2"`, with pairwise distinct cluster,
context and user names, the second merge succeeds but its current-context is
`d2`'s value `"cc2"`, not the constant `"pp-dev"` — because the accumulator's
current-context is still empty after the first merge. -/
theorem merge_second_currentContext_counterexample :
    mergeKubeConfigs NewKubeConfigEmpty (mkSingleDoc "c1" "x1" "u1" "") =
      .ok { mkSingleDoc "c1" "x1" "u1" "" with
              ApiVersion := kubeConfigApiVersion,
              Kind := kubeConfigKind } ∧
    (mergeKubeConfigs
        { mkSingleDoc "c1" "x1" "u1" "" with
            ApiVersion := kubeConfigApiVersion,
            Kind := kubeConfigKind }
        (mkSingleDoc "c2" "x2" "u2" "cc2")).map KubeConfig.CurrentContext =
      .ok "cc2" ∧
    ("cc2" : String) ≠ kubeConfigCurrentContext :=
  ⟨rfl, rfl, by decide⟩

/-- C2 amended: for valid single-entry documents `d` and `d2` with pairwise
distinct cluster, context and user names, and with `d`'s current-context
NON-EMPTY, the double merge `Merge(Merge(empty, d), d2)` succeeds with
exactly 2 clusters, 2 contexts and 2 users, and its current-context is the
fixed constant `"pp-dev"`. -/
theorem merge_two_singles (d d2 : KubeConfig)
    (hc : d.Clusters.length = 1) (hx : d.Contexts.length = 1)
    (hu : d.Users.length = 1)
    (hc2 : d2.Clusters.length = 1) (hx2 : d2.Contexts.length = 1)
    (hu2 : d2.Users.length = 1)
    (hcl : clustersFirstNameEq d d2 = false)
    (hct : contextsFirstNameEq d d2 = false)
    (hus : usersFirstNameEq d d2 = false)
    (hcc : d.CurrentContext ≠ "") :
    mergeKubeConfigs NewKubeConfigEmpty d =
      .ok { d with ApiVersion := kubeConfigApiVersion,
                   Kind := kubeConfigKind } ∧
    ∃ m, mergeKubeConfigs
        { d with ApiVersion := kubeConfigApiVersion,
                 Kind := kubeConfigKind } d2 = .ok m ∧
      m.Clusters.length = 2 ∧ m.Contexts.length = 2 ∧
      m.Users.length = 2 ∧ m.CurrentContext = kubeConfigCurrentContext := by
  refine ⟨merge_empty_single d hc hx hu, ?_⟩
  have hv2 : d2.Validate = none := by
    rw [validate_eq_none]
    refine ⟨?_, ?_, ?_⟩ <;> intro h <;> simp [h] at hc2 hx2 hu2
  have hd : ({ d with ApiVersion := kubeConfigApiVersion,
                      Kind := kubeConfigKind } : KubeConfig).HasDuplicateNames
      d2 = none := by
    unfold KubeConfig.HasDuplicateNames
    have e1 : clustersFirstNameEq
        { d with ApiVersion := kubeConfigApiVersion,
                 Kind := kubeConfigKind } d2 = clustersFirstNameEq d d2 := rfl
    have e2 : contextsFirstNameEq
        { d with ApiVersion := kubeConfigApiVersion,
                 Kind := kubeConfigKind } d2 = contextsFirstNameEq d d2 := rfl
    have e3 : usersFirstNameEq
        { d with ApiVersion := kubeConfigApiVersion,
                 Kind := kubeConfigKind } d2 = usersFirstNameEq d d2 := rfl
    rw [e1, e2, e3, hcl, hct, hus]
    simp
  have hm2 : d2.HasMultipleEntries = none := by
    unfold KubeConfig.HasMultipleEntries
    simp [hc2, hx2, hu2]
  rw [mergeKubeConfigs_ok _ _ hv2 hd hm2]
  refine ⟨_, rfl, ?_, ?_, ?_, ?_⟩
  · simp [hc, hc2]
  · simp [hx, hx2]
  · simp [hu, hu2]
  · show (if ({ d with ApiVersion := kubeConfigApiVersion,
                       Kind := kubeConfigKind } : KubeConfig).CurrentContext
        = "" then d2.CurrentContext else kubeConfigCurrentContext)
      = kubeConfigCurrentContext
    exact if_neg hcc

/-- Witness for the amended C2 at concrete documents with a non-empty first
current-context. -/
theorem merge_two_singles_witness :
    (mkSingleDoc "c1" "x1" "u1" "occ").CurrentContext ≠ "" ∧
    mergeKubeConfigs NewKubeConfigEmpty (mkSingleDoc "c1" "x1" "u1" "occ") =
      .ok { mkSingleDoc "c1" "x1" "u1" "occ" with
              ApiVersion := kubeConfigApiVersion,
              Kind := kubeConfigKind } ∧
    ∃ m, mergeKubeConfigs
        { mkSingleDoc "c1" "x1" "u1" "occ" with
            ApiVersion := kubeConfigApiVersion,
            Kind := kubeConfigKind } (mkSingleDoc "c2" "x2" "u2" "cc2")
        = .ok m ∧
      m.Clusters.length = 2 ∧ m.Contexts.length = 2 ∧
      m.Users.length = 2 ∧ m.CurrentContext = kubeConfigCurrentContext := by
  have h := merge_two_singles (mkSingleDoc "c1" "x1" "u1" "occ")
    (mkSingleDoc "c2" "x2" "u2" "cc2") rfl rfl rfl rfl rfl rfl
    rfl rfl rfl (by decide)
  exact ⟨by decide, h.1, h.2⟩

/-- Helper for C4: an accumulator with two clusters named `"a"` and `"b"`,
one context named `"c"` and one user named `"u"`. -/
def twoClusterAcc : KubeConfig :=
  { ApiVersion := "v1", Kind := "Config", CurrentContext := "cc",
    Clusters :=
      [{ Cluster := { CertificateAuthorityData := "ca1", Server := "s1" },
         Name := "a" },
       { Cluster := { CertificateAuthorityData := "ca2", Server := "s2" },
         Name := "b" }],
    Contexts := [{ Context := { Cluster := "a", User := "u" }, Name := "c" }],
    Users := [{ User := .raw "t", Name := "u" }] }

/-- Counterexample to C4: the incoming document `mkSingleDoc "b" "c" "u2" ""`
has cluster name `"b"` equal to the accumulator's SECOND cluster name and
different from the accumulator's first cluster name `"a"`, first context name
`"c"` and first user name `"u"`, yet the merge FAILS — the incoming context
name `"c"` collides with the accumulator's first context name, which the
claim's hypotheses do not exclude. -/
theorem merge_second_position_counterexample :
    twoClusterAcc.Clusters.map ClusterEntry.Name = ["a", "b"] ∧
    (mkSingleDoc "b" "c" "u2" "").Clusters.map ClusterEntry.Name = ["b"] ∧
    (mkSingleDoc "b" "c" "u2" "").Contexts.map ContextEntry.Name = ["c"] ∧
    (mkSingleDoc "b" "c" "u2" "").Users.map UserEntry.Name = ["u2"] ∧
    twoClusterAcc.Contexts.map ContextEntry.Name = ["c"] ∧
    twoClusterAcc.Users.map UserEntry.Name = ["u"] ∧
    mergeKubeConfigs twoClusterAcc (mkSingleDoc "b" "c" "u2" "") =
      .error (.internalError "kubeconfig has duplicate context name") :=
  ⟨rfl, rfl, rfl, rfl, rfl, rfl, rfl⟩

/-- C4 amended: the duplicate-name check compares only FIRST entries, so for
an accumulator with at least two clusters and a valid single-entry incoming
document whose cluster name matches a second-or-later accumulator cluster
name but not the accumulator's first cluster name — provided additionally
that the incoming first context and first user names do not collide with the
accumulator's first context and first user names — the merge succeeds and
the resulting cluster section contains that name at least twice. -/
theorem merge_second_position_cluster_dup (acc inc : KubeConfig)
    (a1 : ClusterEntry) (rest : List ClusterEntry) (name : String)
    (hacc : acc.Clusters = a1 :: rest)
    (hic : inc.Clusters.map ClusterEntry.Name = [name])
    (hix : inc.Contexts.length = 1) (hiu : inc.Users.length = 1)
    (hmem : name ∈ rest.map ClusterEntry.Name)
    (hne1 : name ≠ a1.Name)
    (hctx : contextsFirstNameEq acc inc = false)
    (husr : usersFirstNameEq acc inc = false) :
    ∃ m, mergeKubeConfigs acc inc = .ok m ∧
      2 ≤ (m.Clusters.map ClusterEntry.Name).count name := by
  obtain ⟨ic, hic1, hicname⟩ :
      ∃ ic, inc.Clusters = [ic] ∧ ic.Name = name := by
    cases h : inc.Clusters with
    | nil => rw [h] at hic; simp at hic
    | cons c tl =>
      cases tl with
      | nil =>
        rw [h] at hic
        simp at hic
        exact ⟨c, rfl, hic⟩
      | cons c2 tl2 => rw [h] at hic; simp at hic
  have hv : inc.Validate = none := by
    rw [validate_eq_none]
    refine ⟨by simp [hic1], ?_, ?_⟩ <;> intro h <;> simp [h] at hix hiu
  have hclb : clustersFirstNameEq acc inc = false := by
    unfold clustersFirstNameEq
    rw [hacc, hic1]
    simp [hicname, hne1]
  have hd : acc.HasDuplicateNames inc = none := by
    unfold KubeConfig.HasDuplicateNames
    rw [hclb, hctx, husr]
    simp
  have hm : inc.HasMultipleEntries = none := by
    unfold KubeConfig.HasMultipleEntries
    simp [hic1, hix, hiu]
  rw [mergeKubeConfigs_ok _ _ hv hd hm]
  refine ⟨_, rfl, ?_⟩
  show 2 ≤ ((acc.Clusters ++ inc.Clusters).map ClusterEntry.Name).count name
  rw [hacc, hic1]
  simp [List.count_cons, List.count_append, hicname, hne1, Ne.symm hne1]
  simpa using hmem

/-- Witness for the amended C4 at a concrete accumulator and incoming
document (incoming context/user names chosen collision-free). -/
theorem merge_second_position_cluster_dup_witness :
    twoClusterAcc.Clusters =
      { Cluster := { CertificateAuthorityData := "ca1", Server := "s1" },
        Name := "a" } ::
      [{ Cluster := { CertificateAuthorityData := "ca2", Server := "s2" },
         Name := "b" }] ∧
    ∃ m, mergeKubeConfigs twoClusterAcc (mkSingleDoc "b" "c2" "u2" "")
        = .ok m ∧
      2 ≤ (m.Clusters.map ClusterEntry.Name).count "b" :=
  ⟨rfl, merge_second_position_cluster_dup twoClusterAcc
    (mkSingleDoc "b" "c2" "u2" "")
    { Cluster := { CertificateAuthorityData := "ca1", Server := "s1" },
      Name := "a" }
    [{ Cluster := { CertificateAuthorityData := "ca2", Server := "s2" },
       Name := "b" }]
    "b" rfl rfl rfl rfl (by decide) (by decide) rfl rfl⟩

/-- Helper for C8: three valid single-entry documents, the first two sharing
the cluster name `"x"`, in store iteration order a, b, c. -/
def storeABC : Store :=
  [("a", mkSingleDoc "x" "ca" "ua" ""),
   ("b", mkSingleDoc "x" "cb" "ub" ""),
   ("c", mkSingleDoc "y" "cc" "uc" "")]

/-- Helper for C8: the same three entries in store iteration order c, a, b. -/
def storeCAB : Store :=
  [("c", mkSingleDoc "y" "cc" "uc" "")]
  ++ [("a", mkSingleDoc "x" "ca" "ua" "")]
  ++ [("b", mkSingleDoc "x" "cb" "ub" "")]

/-- C8: folding a fixed document set through the merge engine from the empty
accumulator is not permutation-invariant.  `storeABC` and `storeCAB` hold the
same three `(name, document)` pairs (a `List.Perm` conjunct), two documents
share the cluster name `"x"`, yet `validateAllConfigsMergeable` — the startup
fold in map iteration order — fails with a duplicate-name error in the a,b,c
order (where the colliding name sits first) and succeeds in the c,a,b order
(where cluster `"y"` occupies the accumulator's first, and only checked,
position).  So the startup validation can pass or fail for the same set
depending on iteration order. -/
theorem mergeable_validation_order_dependent :
    validateAllConfigsMergeable storeABC =
      some (.decorate "failed to merge config 'b' during validation"
        (.internalError "kubeconfig has duplicate cluster name")) ∧
    validateAllConfigsMergeable storeCAB = none ∧
    List.Perm storeABC storeCAB ∧
    (mkSingleDoc "x" "ca" "ua" "").Clusters.map ClusterEntry.Name
      = (mkSingleDoc "x" "cb" "ub" "").Clusters.map ClusterEntry.Name :=
  ⟨rfl, rfl, by decide, rfl⟩

/-- Counterexample to C6: with the store holding only `"a"`, the request
`["a", "a", "b"]` contains the absent name `"b"`, but the resolver fails
EARLIER, at the second `"a"`, with a duplicate-name merge error mapped to
HTTP 500 — not at the absent name with a not-found error and 404. -/
theorem resolve_missing_counterexample :
    lookupConfig [("a", mkSingleDoc "c1" "x1" "u1" "cc")] "b" = none ∧
    loadAndMergeConfigs [("a", mkSingleDoc "c1" "x1" "u1" "cc")]
        ["a", "a", "b"] =
      .error (.decorate "failed to merge kubeconfig: a"
        (.internalError "kubeconfig has duplicate cluster name")) ∧
    getStatusCodeFromError (.decorate "failed to merge kubeconfig: a"
        (.internalError "kubeconfig has duplicate cluster name")) = 500 :=
  ⟨rfl, rfl, rfl⟩

/-- Helper: a Boolean list prefix stays a prefix after appending on the
right. -/
theorem isPrefixOf_append_right (p l m : List Char)
    (h : p.isPrefixOf l = true) : p.isPrefixOf (l ++ m) = true := by
  rw [List.isPrefixOf_iff_prefix] at h ⊢
  exact h.trans (List.prefix_append l m)

/-- Helper: `listHasSub` of any pattern holds on `l ++ m` when it holds on
`l`. -/
theorem listHasSub_append_right (pat : List Char) :
    ∀ l m : List Char, listHasSub pat l = true →
      listHasSub pat (l ++ m) = true := by
  intro l
  induction l with
  | nil =>
    intro m h
    unfold listHasSub at h
    have hp : pat = [] := by
      cases pat with
      | nil => rfl
      | cons c r => simp [List.isEmpty] at h
    subst hp
    cases m with
    | nil => rfl
    | cons c r =>
      unfold listHasSub
      simp [List.isPrefixOf]
  | cons c l' ih =>
    intro m h
    unfold listHasSub at h ⊢
    rcases Bool.or_eq_true_iff.mp h with hpre | hsub
    · exact Bool.or_eq_true_iff.mpr
        (Or.inl (isPrefixOf_append_right pat (c :: l') m hpre))

    · exact Bool.or_eq_true_iff.mpr (Or.inr (ih m hsub))

/-- Helper: the `"kubeconfig not found: <name>"` error always maps to HTTP
404, whatever the name. -/
theorem statusCode_notFound (name : String) :
    getStatusCodeFromError
      (.internalError ("kubeconfig not found: " ++ name)) = 404 := by
  unfold getStatusCodeFromError
  have hdata : ("kubeconfig not found: " ++ name).data =
      "kubeconfig not found: ".data ++ name.data := by
    obtain ⟨nd⟩ := name
    rfl
  have hsub : strContains
      (Errorx.message (.internalError ("kubeconfig not found: " ++ name)))
      "not found" = true := by
    show strContains ("kubeconfig not found: " ++ name) "not found" = true
    unfold strContains
    rw [hdata]
    exact listHasSub_append_right "not found".data
      "kubeconfig not found: ".data name.data (by decide)
  rw [hsub]
  rfl

/-- Helper: the resolver loop on `l1 ++ l2` continues into `l2` from the
accumulator the successful run over `l1` produced. -/
theorem mergeNamesLoop_append (store : Store) (l1 : List String) :
    ∀ (acc acc1 : KubeConfig) (l2 : List String),
      mergeNamesLoop store acc l1 = .ok acc1 →
      mergeNamesLoop store acc (l1 ++ l2) = mergeNamesLoop store acc1 l2 := by
  induction l1 with
  | nil =>
    intro acc acc1 l2 h
    unfold mergeNamesLoop at h
    cases h
    rfl
  | cons nm rest ih =>
    intro acc acc1 l2 h
    rw [List.cons_append]
    simp only [mergeNamesLoop] at h ⊢
    cases hl : lookupConfig store nm with
    | none =>
      rw [hl] at h
      simp at h
    | some cfg =>
      rw [hl] at h
      have h2 : (match mergeKubeConfigs acc cfg with
          | Except.error e =>
            Except.error (Errorx.decorate
              ("failed to merge kubeconfig: " ++ nm) e)
          | Except.ok acc2 => mergeNamesLoop store acc2 rest)
          = Except.ok acc1 := h
      show (match mergeKubeConfigs acc cfg with
          | Except.error e =>
            Except.error (Errorx.decorate
              ("failed to merge kubeconfig: " ++ nm) e)
          | Except.ok acc2 => mergeNamesLoop store acc2 (rest ++ l2))
          = mergeNamesLoop store acc1 l2
      cases hm : mergeKubeConfigs acc cfg with
      | error e =>
        rw [hm] at h2
        simp at h2
      | ok acc2 =>
        rw [hm] at h2
        exact ih acc2 acc1 l2 h2

/-- C6 amended: if every name before the first absent name is present in the
store and the prefix folds through the merge engine without error, then the
resolver fails exactly at the first absent name with the not-found error,
mapped to HTTP 404, and produces no merged result (the embedding is a pure
read of the store, which is therefore unchanged). -/
theorem resolve_first_missing (store : Store) (names1 names2 : List String)
    (n : String) (acc1 : KubeConfig)
    (h1 : mergeNamesLoop store NewKubeConfigEmpty names1 = .ok acc1)
    (h2 : lookupConfig store n = none) :
    loadAndMergeConfigs store (names1 ++ n :: names2) =
      .error (.internalError ("kubeconfig not found: " ++ n)) ∧
    getStatusCodeFromError
      (.internalError ("kubeconfig not found: " ++ n)) = 404 := by
  constructor
  · unfold loadAndMergeConfigs
    rw [mergeNamesLoop_append store names1 NewKubeConfigEmpty acc1
      (n :: names2) h1]
    unfold mergeNamesLoop
    rw [h2]
  · exact statusCode_notFound n

/-- Witness for the amended C6: store holding only `"a"`, request
`["a", "b"]` — the prefix `["a"]` merges fine and `"b"` is absent. -/
theorem resolve_first_missing_witness :
    mergeNamesLoop [("a", mkSingleDoc "c1" "x1" "u1" "cc")]
      NewKubeConfigEmpty ["a"] =
      .ok { mkSingleDoc "c1" "x1" "u1" "cc" with
              ApiVersion := kubeConfigApiVersion,
              Kind := kubeConfigKind } ∧
    lookupConfig [("a", mkSingleDoc "c1" "x1" "u1" "cc")] "b" = none ∧
    loadAndMergeConfigs [("a", mkSingleDoc "c1" "x1" "u1" "cc")]
        (["a"] ++ ["b"]) =
      .error (.internalError ("kubeconfig not found: " ++ "b")) ∧
    getStatusCodeFromError
      (.internalError ("kubeconfig not found: " ++ "b")) = 404 := by
  have h := resolve_first_missing [("a", mkSingleDoc "c1" "x1" "u1" "cc")]
    ["a"] [] "b"
    { mkSingleDoc "c1" "x1" "u1" "cc" with
        ApiVersion := kubeConfigApiVersion, Kind := kubeConfigKind }
    rfl rfl
  exact ⟨rfl, rfl, h.1, h.2⟩

/-- Helper: for a directory entry that is not a directory, not `..`-prefixed,
whose stat reports a regular file, and whose contents fail to parse,
`loadSingleConfig` aborts with the decorated load error. -/
theorem loadSingleConfig_parse_error (dir : String) (file : DirEntry)
    (err : Errorx) (hdir : file.IsDir = false)
    (hpp : hasPrefixB file.Name ".." = false)
    (hstat : file.stat = some false)
    (hparse : file.parse = .error err) :
    loadSingleConfig dir file =
      .error (.decorate ("failed to load kubeconfig: " ++
        filepathJoin dir file.Name) err) := by
  unfold loadSingleConfig
  rw [hdir, hpp, hstat, hparse]
  rfl

/-- Helper: the load loop aborts with an error whenever any entry of the
list is a non-directory, non-`..`-prefixed, stat-regular file that fails to
parse, for every starting accumulator store. -/
theorem loadAllConfigsLoop_error (dir : String) (e : DirEntry) (err : Errorx)
    (hdir : e.IsDir = false) (hpp : hasPrefixB e.Name ".." = false)
    (hstat : e.stat = some false) (hparse : e.parse = .error err) :
    ∀ (files : List DirEntry) (store : Store), e ∈ files →
      ∃ e1, loadAllConfigsLoop dir store files = .error e1 := by
  intro files
  induction files with
  | nil => intro store hmem; cases hmem
  | cons f rest ih =>
    intro store hmem
    simp only [loadAllConfigsLoop]
    cases hs : loadSingleConfig dir f with
    | error e1 => exact ⟨e1, rfl⟩
    | ok o =>
      have hne : e ≠ f := by
        intro hef
        subst hef
        rw [loadSingleConfig_parse_error dir e err hdir hpp hstat hparse]
          at hs
        exact Except.noConfusion hs
      have hrest : e ∈ rest := by
        cases List.mem_cons.mp hmem with
        | inl heq => exact absurd heq hne
        | inr hm => exact hm
      cases o with
      | none => exact ih store hrest
      | some kv => exact ih (store ++ [kv]) hrest

/-- C7: if any file of the configs directory that is not a directory and not
`..`-prefixed (and whose stat reports a regular file — without which its
contents could never reach the parser) fails to parse, the whole startup
load returns an error and `NewServer` fails, so the server refuses to start;
the load result is an `Except` error carrying no store, hence no partial
store is produced and no request is served from a partially loaded set. -/
theorem load_aborts_on_parse_error (dir : String) (files : List DirEntry)
    (e : DirEntry) (err : Errorx) (hmem : e ∈ files)
    (hdir : e.IsDir = false) (hpp : hasPrefixB e.Name ".." = false)
    (hstat : e.stat = some false) (hparse : e.parse = .error err) :
    (∃ e1, loadAllConfigs dir files = .error e1) ∧
    (∃ e2, NewServer dir files = .error e2) := by
  obtain ⟨e1, h1⟩ := loadAllConfigsLoop_error dir e err hdir hpp hstat
    hparse files [] hmem
  refine ⟨⟨e1, h1⟩, ?_⟩
  have h1' : loadAllConfigs dir files = .error e1 := h1
  refine ⟨.decorate "failed to load configs on startup" e1, ?_⟩
  unfold NewServer
  rw [h1']

/-- Witness for C7: a one-file directory whose file body fails to parse. -/
theorem load_aborts_on_parse_error_witness :
    (∃ e1, loadAllConfigs "/configs"
      [{ Name := "bad.yaml", IsDir := false, stat := some false,
         parse := .error (.internalError "can't parse kubeconfig file") }]
      = .error e1) ∧
    (∃ e2, NewServer "/configs"
      [{ Name := "bad.yaml", IsDir := false, stat := some false,
         parse := .error (.internalError "can't parse kubeconfig file") }]
      = .error e2) :=
  load_aborts_on_parse_error "/configs"
    [{ Name := "bad.yaml", IsDir := false, stat := some false,
       parse := .error (.internalError "can't parse kubeconfig file") }]
    { Name := "bad.yaml", IsDir := false, stat := some false,
      parse := .error (.internalError "can't parse kubeconfig file") }
    (.internalError "can't parse kubeconfig file")
    (List.mem_singleton.mpr rfl) rfl rfl rfl rfl

/-- Helper: the reversed-extension scan finds nothing when the scanned
characters contain no dot. -/
theorem extRevAux_no_dot : ∀ (l acc : List Char), '.' ∉ l →
    extRevAux acc l = none
  | [], _, _ => rfl
  | c :: rest, acc, h => by
    have hc : c ≠ '.' := by
      intro hceq
      exact h (hceq ▸ List.mem_cons_self c rest)
    have hrest : '.' ∉ rest := fun hm => h (List.mem_cons_of_mem c hm)
    unfold extRevAux
    by_cases hsl : c = '/'
    · simp [hsl]
    · simp [hsl, hc]
      exact extRevAux_no_dot rest (acc ++ [c]) hrest

/-- C10: the logical config name strips exactly the final dot-suffix of the
file name — a name with no dot maps to itself, `"a.b.yaml"` maps to
`"a.b"`, and `".foo"` (whose only dot is its leading character) maps to the
empty-string name, which then becomes a key of the store index. -/
theorem configName_strips_final_dot_suffix :
    (∀ name : String, '.' ∉ name.data → configNameOf name = name) ∧
    configNameOf "a.b.yaml" = "a.b" ∧
    configNameOf ".foo" = "" ∧
    loadAllConfigs "/configs"
      [{ Name := ".foo", IsDir := false, stat := some false,
         parse := .ok (mkSingleDoc "c" "x" "u" "") }]
      = .ok [("", mkSingleDoc "c" "x" "u" "")] := by
  refine ⟨?_, rfl, rfl, rfl⟩
  intro name hnd
  obtain ⟨l⟩ := name
  have hext : filepathExt ⟨l⟩ = "" := by
    unfold filepathExt
    rw [extRevAux_no_dot l.reverse []
      (fun hm => hnd (List.mem_reverse.mp hm))]
  unfold configNameOf
  rw [hext]
  unfold trimSuffix
  simp

/-- Witness for C10 at the dot-free file name `"abc"`. -/
theorem configName_strips_final_dot_suffix_witness :
    configNameOf "abc" = "abc" ∧ configNameOf "a.b.yaml" = "a.b" :=
  ⟨configName_strips_final_dot_suffix.1 "abc" (by decide),
   configName_strips_final_dot_suffix.2.1⟩

end GoGetKubeconfig
